import Mathlib

/-!
Shallow embedding of the cmio-fun guest-side I/O bridge
(src/cmio.rs, src/network.rs, src/unix_tcp_socket.rs) and proofs about it.

Machine integers are modelled as `Nat` with explicit `% 2^w` where the source
performs a truncating cast; byte sequences are `List Nat`; fallible code
returns `Except`.  OS-level effects (socket connect/read/write, the ioctl and
mmap calls, the TAP device and the host supervisor) are modelled as explicit
oracle environments, and resource acquisition/release is recorded as an
explicit action trace.
-/

set_option maxHeartbeats 1000000

namespace CmioFun

/-! ## Byte-order helpers (`to_be_bytes` / `from_be_bytes` on u16 / u32) -/

/-- `(n as u16).to_be_bytes()` -/
def u16be (n : Nat) : List Nat := [n / 256 % 256, n % 256]

/-- `(n as u32).to_be_bytes()` -/
def u32be (n : Nat) : List Nat :=
  [n / 16777216 % 256, n / 65536 % 256, n / 256 % 256, n % 256]

/-- `u32::from_be_bytes [a,b,c,d]` -/
def fromBe4 (a b c d : Nat) : Nat := ((a * 256 + b) * 256 + c) * 256 + d

/-! ## Error type (src/cmio.rs, `CmioError`) -/

inductive CmioError where
  | OpenError (errno : Int)
  | SetupError (errno : Int)
  | MapError (errno : Int)
  | BufferTooLarge (requested : Nat) (maxLen : Nat)
deriving Repr, DecidableEq

deriving instance DecidableEq for Except

/-! ## Socket multiplexer wire format (src/unix_tcp_socket.rs) -/

def MSG_TYPE_UNIX_CONNECT : Nat := 0x01
def MSG_TYPE_UNIX_SEND : Nat := 0x02
def MSG_TYPE_UNIX_RECEIVE : Nat := 0x03
def MSG_TYPE_UNIX_CLOSE : Nat := 0x04
def MSG_TYPE_TCP_CONNECT : Nat := 0x05
def MSG_TYPE_TCP_SEND : Nat := 0x06
def MSG_TYPE_TCP_RECEIVE : Nat := 0x07
def MSG_TYPE_TCP_CLOSE : Nat := 0x08

/-- `SocketMessage` struct.  The Rust `path: String` is modelled as its UTF-8
byte sequence; `ip_addr: [u8; 4]` as a 4-tuple. -/
structure SocketMessage where
  msg_type : Nat
  socket_id : Nat
  path : List Nat
  ip_addr : Nat × Nat × Nat × Nat
  port : Nat
  data : List Nat
deriving Repr, DecidableEq

/-- Continuation byte test used by UTF-8 validation (`0x80..=0xBF`). -/
def isCont (c : Nat) : Bool := decide (0x80 ≤ c ∧ c ≤ 0xBF)

/-- Byte-level UTF-8 validity, as enforced by Rust's `String::from_utf8`
inside `SocketMessage::deserialize`. -/
def isValidUtf8 : List Nat → Bool
  | [] => true
  | b :: rest =>
    if b ≤ 0x7F then isValidUtf8 rest
    else
      match rest with
      | [] => false
      | c1 :: rest1 =>
        if 0xC2 ≤ b ∧ b ≤ 0xDF then
          if isCont c1 then isValidUtf8 rest1 else false
        else
          match rest1 with
          | [] => false
          | c2 :: rest2 =>
            if b = 0xE0 then
              if (0xA0 ≤ c1 ∧ c1 ≤ 0xBF) ∧ isCont c2 then isValidUtf8 rest2 else false
            else if (0xE1 ≤ b ∧ b ≤ 0xEC) ∨ b = 0xEE ∨ b = 0xEF then
              if isCont c1 ∧ isCont c2 then isValidUtf8 rest2 else false
            else if b = 0xED then
              if (0x80 ≤ c1 ∧ c1 ≤ 0x9F) ∧ isCont c2 then isValidUtf8 rest2 else false
            else
              match rest2 with
              | [] => false
              | c3 :: rest3 =>
                if b = 0xF0 then
                  if (0x90 ≤ c1 ∧ c1 ≤ 0xBF) ∧ isCont c2 ∧ isCont c3 then
                    isValidUtf8 rest3
                  else false
                else if 0xF1 ≤ b ∧ b ≤ 0xF3 then
                  if isCont c1 ∧ isCont c2 ∧ isCont c3 then isValidUtf8 rest3 else false
                else if b = 0xF4 then
                  if (0x80 ≤ c1 ∧ c1 ≤ 0x8F) ∧ isCont c2 ∧ isCont c3 then
                    isValidUtf8 rest3
                  else false
                else false

/-- `SocketMessage::serialize`.  Note the source includes the destination
(path, or ip+port) only for the two CONNECT types and the `data_len ∥ data`
payload only for every other type; a CONNECT's `data` field is dropped. -/
def SocketMessage.serialize (m : SocketMessage) : List Nat :=
  if m.msg_type = MSG_TYPE_UNIX_CONNECT then
    m.msg_type :: u32be m.socket_id ++ m.path.length % 256 :: m.path
  else if m.msg_type = MSG_TYPE_TCP_CONNECT then
    m.msg_type :: u32be m.socket_id ++
      [m.ip_addr.1, m.ip_addr.2.1, m.ip_addr.2.2.1, m.ip_addr.2.2.2] ++ u16be m.port
  else
    m.msg_type :: u32be m.socket_id ++ u32be m.data.length ++ m.data

/-- `SocketMessage::deserialize`.  Length guards of the source become pattern
matches; trailing bytes beyond the decoded message are ignored, exactly as the
offset-based source ignores them. -/
def SocketMessage.deserialize (data : List Nat) : Except CmioError SocketMessage :=
  match data with
  | t :: i1 :: i2 :: i3 :: i4 :: rest =>
    let socket_id := fromBe4 i1 i2 i3 i4
    if t = MSG_TYPE_UNIX_CONNECT then
      match rest with
      | pl :: rest2 =>
        if rest2.length < pl then .error (.SetupError (-1))
        else if isValidUtf8 (rest2.take pl) then
          .ok ⟨t, socket_id, rest2.take pl, (0, 0, 0, 0), 0, []⟩
        else .error (.SetupError (-1))
      | [] => .error (.SetupError (-1))
    else if t = MSG_TYPE_TCP_CONNECT then
      match rest with
      | a :: b :: c :: d :: p1 :: p2 :: _ =>
        .ok ⟨t, socket_id, [], (a, b, c, d), p1 * 256 + p2, []⟩
      | _ => .error (.SetupError (-1))
    else
      match rest with
      | l1 :: l2 :: l3 :: l4 :: rest2 =>
        let dlen := fromBe4 l1 l2 l3 l4
        if rest2.length < dlen then .error (.SetupError (-1))
        else .ok ⟨t, socket_id, [], (0, 0, 0, 0), 0, rest2.take dlen⟩
      | _ => .error (.SetupError (-1))
  | _ => .error (.SetupError (-1))

/-- Well-formedness of a message as constructed from Rust values: fields fit
their machine types, the path is genuine UTF-8 and fits the `u8` length byte,
and data fits the `u32` length field. -/
def ValidMsg (m : SocketMessage) : Prop :=
  m.msg_type < 256 ∧ m.socket_id < 4294967296 ∧
  (m.msg_type = MSG_TYPE_UNIX_CONNECT → m.path.length ≤ 255 ∧ isValidUtf8 m.path = true) ∧
  (m.msg_type = MSG_TYPE_TCP_CONNECT →
    m.ip_addr.1 < 256 ∧ m.ip_addr.2.1 < 256 ∧ m.ip_addr.2.2.1 < 256 ∧
    m.ip_addr.2.2.2 < 256 ∧ m.port < 65536) ∧
  (m.msg_type ≠ MSG_TYPE_UNIX_CONNECT → m.msg_type ≠ MSG_TYPE_TCP_CONNECT →
    m.data.length < 4294967296)

instance (m : SocketMessage) : Decidable (ValidMsg m) := by
  unfold ValidMsg; infer_instance

/-! ## Connection tables

The two Rust `HashMap<u32, (String, Stream)>` tables are modelled as
association lists with unique keys; a stream handle is an opaque `Nat` token
handed out by the OS oracle.  `tblInsert` and `tblRemove` return the displaced
value exactly as `HashMap::insert` / `HashMap::remove` do. -/

def tblLookup {A : Type} : List (Nat × A) → Nat → Option A
  | [], _ => none
  | (k', v) :: rest, k => if k' = k then some v else tblLookup rest k

def tblInsert {A : Type} : List (Nat × A) → Nat → A → Option A × List (Nat × A)
  | [], k, v => (none, [(k, v)])
  | (k', v') :: rest, k, v =>
    if k' = k then (some v', (k, v) :: rest)
    else
      let r := tblInsert rest k v
      (r.1, (k', v') :: r.2)

def tblRemove {A : Type} : List (Nat × A) → Nat → Option A × List (Nat × A)
  | [], _ => (none, [])
  | (k', v) :: rest, k =>
    if k' = k then (some v, rest)
    else
      let r := tblRemove rest k
      (r.1, (k', v) :: r.2)

/-! ## Socket manager (src/unix_tcp_socket.rs, `SocketManager`) -/

/-- Result of a non-blocking `stream.read(&mut buffer)` as seen by the guest. -/
inductive ReadResult where
  | ok (bytes : List Nat)
  | wouldBlock
  | err (errno : Int)

/-- OS oracle for the socket syscalls the handlers perform.  Stream handles
are opaque `Nat` tokens. -/
structure SockEnv where
  unixConnect : List Nat → Except Int Nat
  tcpConnect : Nat × Nat × Nat × Nat → Nat → Except Int Nat
  setNonblocking : Nat → Except Int Unit
  writeAll : Nat → List Nat → Except Int Unit
  readStream : Nat → ReadResult

/-- The manager's mutable state: the two connection tables, plus a trace of
stream tokens whose `Drop` has run (destroyed streams). -/
structure SockState where
  unix_connections : List (Nat × (List Nat × Nat))
  tcp_connections : List (Nat × (List Nat × Nat))
  destroyed : List Nat
deriving Repr, DecidableEq

/-- `SocketManager::handle_unix_connect`.  A connect failure is propagated as
`Err` (the `?` operator); on success the displaced entry's stream, if any, is
dropped when `insert` overwrites it. -/
def handle_unix_connect (env : SockEnv) (st : SockState) (m : SocketMessage) :
    Except CmioError (List Nat × SockState) :=
  match env.unixConnect m.path with
  | .error e => .error (.SetupError e)
  | .ok s =>
    let ins := tblInsert st.unix_connections m.socket_id (m.path, s)
    .ok ((SocketMessage.mk MSG_TYPE_UNIX_CONNECT m.socket_id m.path m.ip_addr m.port
            [0]).serialize,
         { st with unix_connections := ins.2,
                   destroyed := st.destroyed ++ (ins.1.map (fun v => v.2)).toList })

/-- `SocketManager::handle_unix_send`. -/
def handle_unix_send (env : SockEnv) (st : SockState) (m : SocketMessage) :
    Except CmioError (List Nat × SockState) :=
  match tblLookup st.unix_connections m.socket_id with
  | some c =>
    match env.writeAll c.2 m.data with
    | .error e => .error (.SetupError e)
    | .ok _ =>
      .ok ((SocketMessage.mk MSG_TYPE_UNIX_SEND m.socket_id m.path m.ip_addr m.port
              [0]).serialize, st)
  | none =>
    .ok ((SocketMessage.mk MSG_TYPE_UNIX_SEND m.socket_id m.path m.ip_addr m.port
            [1]).serialize, st)

/-- `SocketManager::handle_unix_receive`.  The oracle's `ok bytes` stands for
`Ok(n)` with `buffer[..n]` = `bytes` (the OS returns at most the 4096-byte
buffer's worth). -/
def handle_unix_receive (env : SockEnv) (st : SockState) (m : SocketMessage) :
    Except CmioError (List Nat × SockState) :=
  match tblLookup st.unix_connections m.socket_id with
  | some c =>
    match env.readStream c.2 with
    | .ok bytes =>
      .ok ((SocketMessage.mk MSG_TYPE_UNIX_RECEIVE m.socket_id m.path m.ip_addr m.port
              bytes).serialize, st)
    | .wouldBlock =>
      .ok ((SocketMessage.mk MSG_TYPE_UNIX_RECEIVE m.socket_id m.path m.ip_addr m.port
              []).serialize, st)
    | .err e => .error (.SetupError e)
  | none =>
    .ok ((SocketMessage.mk MSG_TYPE_UNIX_RECEIVE m.socket_id m.path m.ip_addr m.port
            [1]).serialize, st)

/-- `SocketManager::handle_unix_close`.  The removed entry's stream is dropped
(destroyed) when the tuple goes out of scope. -/
def handle_unix_close (st : SockState) (m : SocketMessage) :
    Except CmioError (List Nat × SockState) :=
  let rem := tblRemove st.unix_connections m.socket_id
  match rem.1 with
  | some c =>
    .ok ((SocketMessage.mk MSG_TYPE_UNIX_CLOSE m.socket_id m.path m.ip_addr m.port
            [0]).serialize,
         { st with unix_connections := rem.2, destroyed := st.destroyed ++ [c.2] })
  | none =>
    .ok ((SocketMessage.mk MSG_TYPE_UNIX_CLOSE m.socket_id m.path m.ip_addr m.port
            [1]).serialize,
         { st with unix_connections := rem.2 })

/-- `SocketManager::handle_tcp_connect`: connect, then `set_nonblocking`;
either failure is propagated as `Err`. -/
def handle_tcp_connect (env : SockEnv) (st : SockState) (m : SocketMessage) :
    Except CmioError (List Nat × SockState) :=
  match env.tcpConnect m.ip_addr m.port with
  | .error e => .error (.SetupError e)
  | .ok s =>
    match env.setNonblocking s with
    | .error e => .error (.SetupError e)
    | .ok _ =>
      let ins := tblInsert st.tcp_connections m.socket_id (m.path, s)
      .ok ((SocketMessage.mk MSG_TYPE_TCP_CONNECT m.socket_id m.path m.ip_addr m.port
              [0]).serialize,
           { st with tcp_connections := ins.2,
                     destroyed := st.destroyed ++ (ins.1.map (fun v => v.2)).toList })

/-- `SocketManager::handle_tcp_send`. -/
def handle_tcp_send (env : SockEnv) (st : SockState) (m : SocketMessage) :
    Except CmioError (List Nat × SockState) :=
  match tblLookup st.tcp_connections m.socket_id with
  | some c =>
    match env.writeAll c.2 m.data with
    | .error e => .error (.SetupError e)
    | .ok _ =>
      .ok ((SocketMessage.mk MSG_TYPE_TCP_SEND m.socket_id m.path m.ip_addr m.port
              [0]).serialize, st)
  | none =>
    .ok ((SocketMessage.mk MSG_TYPE_TCP_SEND m.socket_id m.path m.ip_addr m.port
            [1]).serialize, st)

/-- `SocketManager::handle_tcp_receive`. -/
def handle_tcp_receive (env : SockEnv) (st : SockState) (m : SocketMessage) :
    Except CmioError (List Nat × SockState) :=
  match tblLookup st.tcp_connections m.socket_id with
  | some c =>
    match env.readStream c.2 with
    | .ok bytes =>
      .ok ((SocketMessage.mk MSG_TYPE_TCP_RECEIVE m.socket_id m.path m.ip_addr m.port
              bytes).serialize, st)
    | .wouldBlock =>
      .ok ((SocketMessage.mk MSG_TYPE_TCP_RECEIVE m.socket_id m.path m.ip_addr m.port
              []).serialize, st)
    | .err e => .error (.SetupError e)
  | none =>
    .ok ((SocketMessage.mk MSG_TYPE_TCP_RECEIVE m.socket_id m.path m.ip_addr m.port
            [1]).serialize, st)

/-- `SocketManager::handle_tcp_close`. -/
def handle_tcp_close (st : SockState) (m : SocketMessage) :
    Except CmioError (List Nat × SockState) :=
  let rem := tblRemove st.tcp_connections m.socket_id
  match rem.1 with
  | some c =>
    .ok ((SocketMessage.mk MSG_TYPE_TCP_CLOSE m.socket_id m.path m.ip_addr m.port
            [0]).serialize,
         { st with tcp_connections := rem.2, destroyed := st.destroyed ++ [c.2] })
  | none =>
    .ok ((SocketMessage.mk MSG_TYPE_TCP_CLOSE m.socket_id m.path m.ip_addr m.port
            [1]).serialize,
         { st with tcp_connections := rem.2 })

/-- The per-message dispatch of `SocketManager::process_received_data`. -/
def handleMessage (env : SockEnv) (st : SockState) (m : SocketMessage) :
    Except CmioError (List Nat × SockState) :=
  if m.msg_type = MSG_TYPE_UNIX_CONNECT then handle_unix_connect env st m
  else if m.msg_type = MSG_TYPE_UNIX_SEND then handle_unix_send env st m
  else if m.msg_type = MSG_TYPE_UNIX_RECEIVE then handle_unix_receive env st m
  else if m.msg_type = MSG_TYPE_UNIX_CLOSE then handle_unix_close st m
  else if m.msg_type = MSG_TYPE_TCP_CONNECT then handle_tcp_connect env st m
  else if m.msg_type = MSG_TYPE_TCP_SEND then handle_tcp_send env st m
  else if m.msg_type = MSG_TYPE_TCP_RECEIVE then handle_tcp_receive env st m
  else if m.msg_type = MSG_TYPE_TCP_CLOSE then handle_tcp_close st m
  else .error (.SetupError (-1))

/-- The batch loop of `SocketManager::process_received_data`: deserialize a
message at the cursor, dispatch it, append its response, then advance the
cursor by `1 + 4 + 4 + message.data.len()` — the source uses this one formula
for every message type.  Fuel-based recursion: every step consumes at least 9
bytes, so `data.length` fuel is always sufficient and the 0-fuel branch is
unreachable from `process_received_data`. -/
def processBatchAux (env : SockEnv) : Nat → SockState → List Nat →
    Except CmioError (List Nat × SockState)
  | _, st, [] => .ok ([], st)
  | 0, _, _ :: _ => .error (.SetupError (-1))
  | fuel + 1, st, d :: rest =>
    match SocketMessage.deserialize (d :: rest) with
    | .error e => .error e
    | .ok m =>
      match handleMessage env st m with
      | .error e => .error e
      | .ok (resp, st') =>
        let msgSize := 1 + 4 + 4 + m.data.length
        match processBatchAux env fuel st' ((d :: rest).drop msgSize) with
        | .error e => .error e
        | .ok (restResp, st'') => .ok (resp ++ restResp, st'')

/-- `SocketManager::process_received_data`, up to the final response yield:
returns the accumulated response bytes and the final state. -/
def process_received_data (env : SockEnv) (st : SockState) (data : List Nat) :
    Except CmioError (List Nat × SockState) :=
  processBatchAux env data.length st data

/-! ## Transport (src/cmio.rs) -/

/-- Packing of the 64-bit yield word, `Cmio::yield_`:
bits 63..56 dev, 55..48 cmd, 47..32 reason, 31..0 data. -/
def packWord (dev cmd reason data : Nat) : Nat :=
  dev % 256 * 2 ^ 56 + cmd % 256 * 2 ^ 48 + reason % 65536 * 2 ^ 32 + data % 4294967296

/-- Transport state: buffer capacities and the guest-visible TX buffer
contents (the RX buffer is host-owned between yields and supplied by the
oracle). -/
structure CmioSt where
  tx_length : Nat
  rx_length : Nat
  tx_buffer : List Nat
deriving Repr, DecidableEq

/-- Host/kernel oracle for one YIELD ioctl: whether the ioctl succeeds, the
64-bit word it hands back (as a function of the word the guest passed in), and
the RX buffer contents after the host ran. -/
structure YieldEnv where
  ioctlOk : Bool
  errno : Int
  respWord : Nat → Nat
  rxAfter : List Nat

/-- `Cmio::yield_with_buffer`.  Returns the call's result, the TX buffer after
the call, and the packed words of the yields actually issued (so that "no
yield happened" is observable). -/
def yield_with_buffer (st : CmioSt) (env : YieldEnv) (dev cmd reason : Nat)
    (tx_data : List Nat) :
    Except CmioError (List Nat × Nat) × CmioSt × List Nat :=
  if tx_data.length > st.tx_length then
    (.error (.BufferTooLarge tx_data.length st.tx_length), st, [])
  else
    let st' := { st with tx_buffer := tx_data ++ st.tx_buffer.drop tx_data.length }
    let packed := packWord dev cmd reason tx_data.length
    let res : Except CmioError (List Nat × Nat) :=
      if env.ioctlOk then
        let w := env.respWord packed % 2 ^ 64
        let rx_len := w % 4294967296
        if rx_len > st.rx_length then .error (.BufferTooLarge rx_len st.rx_length)
        else .ok (env.rxAfter.take rx_len, w / 2 ^ 32 % 65536)
      else .error (.SetupError env.errno)
    (res, st', [packed])

/-- System-level resource actions performed by `Cmio::new` / `Drop for Cmio`. -/
inductive SysAction where
  | openedFd (fd : Int)
  | closedFd (fd : Int)
  | mapped (addr len : Nat)
  | unmapped (addr len : Nat)
deriving Repr, DecidableEq, BEq

/-- Oracle for the syscalls of `Cmio::new`: the fd returned by `open` (negative
means failure with `openErrno`), the SETUP ioctl outcome
`(tx addr, tx len, rx addr, rx len)`, and the two mmap outcomes. -/
structure NewEnv where
  openRet : Int
  openErrno : Int
  setupRet : Except Int (Nat × Nat × Nat × Nat)
  mmapTx : Except Int Nat
  mmapRx : Except Int Nat

/-- A fully constructed `Cmio` value. -/
structure CmioHandle where
  fd : Int
  tx_buffer : Nat
  rx_buffer : Nat
  tx_length : Nat
  rx_length : Nat
deriving Repr, DecidableEq

/-- `Cmio::new`, with the resource actions it performs recorded in order.
Mirrors the source exactly: the SETUP-failure and tx-mmap-failure paths return
without any cleanup, and the rx-mmap-failure path unmaps the TX region but
does not close the descriptor. -/
def cmioNew (env : NewEnv) : Except CmioError CmioHandle × List SysAction :=
  if env.openRet < 0 then (.error (.OpenError env.openErrno), [])
  else
    match env.setupRet with
    | .error e => (.error (.SetupError e), [.openedFd env.openRet])
    | .ok (_txAddr, txLen, _rxAddr, rxLen) =>
      match env.mmapTx with
      | .error e => (.error (.MapError e), [.openedFd env.openRet])
      | .ok txBuf =>
        match env.mmapRx with
        | .error e =>
          (.error (.MapError e),
           [.openedFd env.openRet, .mapped txBuf txLen, .unmapped txBuf txLen])
        | .ok rxBuf =>
          (.ok ⟨env.openRet, txBuf, rxBuf, txLen, rxLen⟩,
           [.openedFd env.openRet, .mapped txBuf txLen, .mapped rxBuf rxLen])

/-- `impl Drop for Cmio`: unmaps both regions and closes the descriptor.  It
runs only for a fully constructed handle, never on `Cmio::new`'s error paths. -/
def cmioDrop (h : CmioHandle) : List SysAction :=
  [.unmapped h.tx_buffer h.tx_length, .unmapped h.rx_buffer h.rx_length, .closedFd h.fd]

/-- File descriptors opened by a trace and never closed. -/
def heldFds (acts : List SysAction) : List Int :=
  (acts.filterMap fun a => match a with | .openedFd fd => some fd | _ => none).filter
    (fun fd => !(acts.contains (.closedFd fd)))

/-- Regions mapped by a trace and never unmapped. -/
def heldMaps (acts : List SysAction) : List (Nat × Nat) :=
  (acts.filterMap fun a => match a with | .mapped ad l => some (ad, l) | _ => none).filter
    (fun p => !(acts.contains (.unmapped p.1 p.2)))

/-! ## TAP adapter (src/network.rs) -/

def HTIF_DEVICE_YIELD : Nat := 0x02
def HTIF_YIELD_CMD_MANUAL : Nat := 0x01
def TAP_RXTX_CMD : Nat := 0x42
def UNIX_SOCKET_CMD : Nat := 0x43

/-- One `iface.recv` outcome as seen by `get_packets_to_transmit`. -/
inductive TapRead where
  | frame (f : List Nat)
  | wouldBlock
  | err (errno : Int)

/-- `NetworkInterface::get_packets_to_transmit`: accumulate frames until a
zero-length read or `WouldBlock`; any other error is fatal.  The oracle list
is what successive `recv` calls return; an exhausted oracle means the TAP has
nothing more (`WouldBlock`). -/
def get_packets_to_transmit : List TapRead → Except CmioError (List (List Nat))
  | [] => .ok []
  | .frame f :: rest =>
    if f.length > 0 then
      match get_packets_to_transmit rest with
      | .error e => .error e
      | .ok ps => .ok (f :: ps)
    else .ok []
  | .wouldBlock :: _ => .ok []
  | .err e :: _ => .error (.SetupError e)

/-- Serialized size of one frame inside a batch: `2 + |frame|` (u16 length
prefix plus payload); `batchSize` sums it over a batch. -/
def batchSize (b : List (List Nat)) : Nat := (b.map (fun p => p.length + 2)).sum

/-- One frame as placed on the wire by `send_batch`: `u16_be(len) ∥ frame`. -/
def serializeFrame (p : List Nat) : List Nat := u16be p.length ++ p

/-- The batch buffer built by `NetworkInterface::send_batch`. -/
def serializeBatch (ps : List (List Nat)) : List Nat := (ps.map serializeFrame).flatten

/-- The batching fold of `NetworkInterface::run_loop` (lines 61-86): flush the
current batch when the next packet would overflow it and it is non-empty; the
final non-empty batch is flushed after the loop.  Returns the batches in the
order they are sent. -/
def batchLoop (ctx : Nat) : List (List Nat) → Nat → List (List Nat) →
    List (List (List Nat))
  | cur, _, [] => if cur.isEmpty then [] else [cur]
  | cur, curSize, p :: rest =>
    let psize := p.length + 2
    if curSize + psize > ctx ∧ ¬cur.isEmpty then
      cur :: batchLoop ctx [p] psize rest
    else
      batchLoop ctx (cur ++ [p]) (curSize + psize) rest

/-- The batch partition produced by one pass of run_loop's step 2. -/
def batchPackets (ctx : Nat) (packets : List (List Nat)) : List (List (List Nat)) :=
  batchLoop ctx [] 0 packets

/-- `NetworkInterface::process_received_data`: split an RX payload into
`u16_be(len) ∥ bytes(len)` records, returning the frame bodies handed to
`iface.send` in order; parsing stops at a trailing fragment shorter than its
declared length. -/
def parsePackets : List Nat → List (List Nat)
  | [] => []
  | [_] => []
  | b1 :: b2 :: rest =>
    let packet_length := b1 * 256 + b2
    if rest.length < packet_length then []
    else rest.take packet_length :: parsePackets (rest.drop packet_length)
termination_by l => l.length
decreasing_by simp [List.length_drop]; omega

/-- One `yield_with_buffer` call as the TAP adapter observes it: the host
oracle maps the yield's sequence number to the RX payload and reason it
returns, and the transport enforces the two capacity bounds. -/
def netYield (ctx crx : Nat) (host : Nat → List Nat × Nat) (i : Nat)
    (payload : List Nat) : Except CmioError (List Nat × Nat) :=
  if payload.length > ctx then .error (.BufferTooLarge payload.length ctx)
  else
    let r := host i
    if r.1.length > crx then .error (.BufferTooLarge r.1.length crx)
    else .ok r

/-- A yield as issued by the adapter: `(dev, cmd, reason, tx payload)`. -/
def YCall : Type := Nat × Nat × Nat × List Nat

instance : DecidableEq YCall := by unfold YCall; infer_instance

def tapYield (payload : List Nat) : YCall :=
  (HTIF_DEVICE_YIELD, HTIF_YIELD_CMD_MANUAL, TAP_RXTX_CMD, payload)

/-- The ingress drain loop of `run_loop` (step 4): empty-payload yields until
the host returns an empty RX payload, injecting every non-empty payload.
Returns the yields issued, the TAP injections, and the next yield index.
`none` means the fuel bound was hit (the loop did not terminate within it). -/
def drainLoop (ctx crx : Nat) (host : Nat → List Nat × Nat) :
    Nat → Nat → Option (Except CmioError (List YCall × List (List Nat) × Nat))
  | 0, _ => none
  | fuel + 1, i =>
    match netYield ctx crx host i [] with
    | .error e => some (.error e)
    | .ok r =>
      if r.1.isEmpty then some (.ok ([tapYield []], [], i + 1))
      else
        match drainLoop ctx crx host fuel (i + 1) with
        | none => none
        | some (.error e) => some (.error e)
        | some (.ok (ys, ss, j)) =>
          some (.ok (tapYield [] :: ys, parsePackets r.1 ++ ss, j))

/-- `NetworkInterface::send_batch` applied to each batch in order: serialize
the batch, yield it, and inject any non-empty RX payload that comes back. -/
def sendBatches (ctx crx : Nat) (host : Nat → List Nat × Nat) :
    List (List (List Nat)) → Nat →
    Except CmioError (List YCall × List (List Nat) × Nat)
  | [], i => .ok ([], [], i)
  | b :: bs, i =>
    let payload := serializeBatch b
    match netYield ctx crx host i payload with
    | .error e => .error e
    | .ok r =>
      match sendBatches ctx crx host bs (i + 1) with
      | .error e => .error e
      | .ok (ys, ss, j) => .ok (tapYield payload :: ys, parsePackets r.1 ++ ss, j)

/-- One iteration of `NetworkInterface::run_loop`: drain the TAP, batch and
send (step 2, via `batchPackets`, each batch sent by `send_batch`), then drain
ingress (step 4); with nothing drained, an empty-payload yield to check for
incoming data, followed either by the ingress drain (if it returned data) or —
if it returned empty — by a second empty-payload "yield to the scheduler"
whose response is discarded (lines 133-142).  Returns the yields issued and
the TAP injections performed. -/
def runLoopIter (ctx crx : Nat) (host : Nat → List Nat × Nat) (fuel : Nat)
    (tapReads : List TapRead) :
    Option (Except CmioError (List YCall × List (List Nat))) :=
  match get_packets_to_transmit tapReads with
  | .error e => some (.error e)
  | .ok packets =>
    if packets.isEmpty then
      match netYield ctx crx host 0 [] with
      | .error e => some (.error e)
      | .ok r =>
        if r.1.isEmpty then
          match netYield ctx crx host 1 [] with
          | .error e => some (.error e)
          | .ok _ => some (.ok ([tapYield [], tapYield []], []))
        else
          match drainLoop ctx crx host fuel 1 with
          | none => none
          | some (.error e) => some (.error e)
          | some (.ok (ys, ss, _)) =>
            some (.ok (tapYield [] :: ys, parsePackets r.1 ++ ss))
    else
      match sendBatches ctx crx host (batchPackets ctx packets) 0 with
      | .error e => some (.error e)
      | .ok (ys, ss, i) =>
        match drainLoop ctx crx host fuel i with
        | none => none
        | some (.error e) => some (.error e)
        | some (.ok (ys2, ss2, _)) => some (.ok (ys ++ ys2, ss ++ ss2))

/-- A trailing fragment shorter than its declared length: empty, a lone
length byte, or a declared length not covered by the remaining bytes. -/
def truncatedFragment (t : List Nat) : Prop :=
  t = [] ∨ (∃ b, t = [b]) ∨ ∃ b1 b2 r, t = b1 :: b2 :: r ∧ r.length < b1 * 256 + b2

/-! ## Concrete inputs used by individual claims -/

/-- The state of a freshly created `SocketManager`: both tables empty. -/
def emptySockState : SockState := ⟨[], [], []⟩

/-- An OS oracle whose connects all succeed (handing out stream token 0),
whose writes succeed, and whose reads report `WouldBlock`. -/
def sockEnvOk : SockEnv :=
  ⟨fun _ => .ok 0, fun _ _ => .ok 0, fun _ => .ok (), fun _ _ => .ok (), fun _ => .wouldBlock⟩

/-- An OS oracle whose connects fail with errno 111 (`ECONNREFUSED`). -/
def sockEnvConnFail : SockEnv :=
  ⟨fun _ => .error 111, fun _ _ => .error 111, fun _ => .ok (), fun _ _ => .ok (),
   fun _ => .wouldBlock⟩

/-- UTF-8 bytes of the path in the spec scenario, a 11-byte Unix path. -/
def c1Path : List Nat := [47, 116, 109, 112, 47, 120, 46, 115, 111, 99, 107]

/-- The RX batch of the spec scenario: UNIX_CONNECT(id 1, the path above),
then UNIX_SEND(id 1, `48 49 21`), then UNIX_CLOSE(id 1). -/
def c1Batch : List Nat :=
  1 :: 0 :: 0 :: 0 :: 1 :: 11 :: c1Path ++
  [2, 0, 0, 0, 1, 0, 0, 0, 3, 0x48, 0x49, 0x21] ++
  [4, 0, 0, 0, 1, 0, 0, 0, 0]

/-- A `Cmio::new` environment where `open` returns fd 3 and the SETUP ioctl
fails with errno 5. -/
def c3envSetupFail : NewEnv := ⟨3, 0, .error 5, .ok 0, .ok 0⟩

/-- A `Cmio::new` environment where `open` returns fd 3, SETUP succeeds, the
TX mapping succeeds, and the RX mapping fails with errno 7. -/
def c3envRxMapFail : NewEnv := ⟨3, 0, .ok (4096, 4096, 8192, 4096), .ok 4096, .error 7⟩

/-- A UNIX_CONNECT request: id 1, path `/tmp` (bytes `2F 74 6D 70`). -/
def c4msg : SocketMessage := ⟨1, 1, [47, 116, 109, 112], (0, 0, 0, 0), 0, []⟩

/-!
# Theorems

Helper lemmas first, then one theorem per claim (with witnesses and
counterexamples where required).
-/

theorem fromBe4_u32be (n : Nat) (h : n < 4294967296) :
    fromBe4 (n / 16777216 % 256) (n / 65536 % 256) (n / 256 % 256) (n % 256) = n := by
  unfold fromBe4; omega

theorem u16_be_round (n : Nat) (h : n < 65536) :
    n / 256 % 256 * 256 + n % 256 = n := by omega

/-- **C8.** For every valid socket message `M`, `deserialize(serialize(M))`
equals `M` componentwise on the fields meaningful to `M`'s type: for
UNIX_CONNECT the path round-trips while data comes back empty; for TCP_CONNECT
the ip and port round-trip while data comes back empty; for every other
msg_type the data round-trips while path, ip and port come back as defaults
(empty, (0,0,0,0), 0); msg_type and conn_id always round-trip. -/
theorem C8_serialize_roundtrip (m : SocketMessage) (h : ValidMsg m) :
    SocketMessage.deserialize (SocketMessage.serialize m) =
      .ok ⟨m.msg_type, m.socket_id,
           if m.msg_type = MSG_TYPE_UNIX_CONNECT then m.path else [],
           if m.msg_type = MSG_TYPE_TCP_CONNECT then m.ip_addr else (0, 0, 0, 0),
           if m.msg_type = MSG_TYPE_TCP_CONNECT then m.port else 0,
           if m.msg_type = MSG_TYPE_UNIX_CONNECT ∨ m.msg_type = MSG_TYPE_TCP_CONNECT
             then [] else m.data⟩ := by
  obtain ⟨t, id, path, ⟨a, b, c, d⟩, port, data⟩ := m
  obtain ⟨h256, hid, hpath, hip, hdata⟩ := h
  simp only [MSG_TYPE_UNIX_CONNECT, MSG_TYPE_TCP_CONNECT] at *
  by_cases h1 : t = 1
  · subst h1
    obtain ⟨hplen, hputf⟩ := hpath rfl
    have hm : path.length % 256 = path.length := Nat.mod_eq_of_lt (by omega)
    simp [SocketMessage.serialize, SocketMessage.deserialize, u32be, hm,
      fromBe4_u32be id hid, hputf, MSG_TYPE_UNIX_CONNECT, MSG_TYPE_TCP_CONNECT]
  · by_cases h5 : t = 5
    · subst h5
      obtain ⟨ha, hb, hc, hd2, hport⟩ := hip rfl
      have hp : port / 256 % 256 * 256 + port % 256 = port := by omega
      simp [SocketMessage.serialize, SocketMessage.deserialize, u32be, u16be,
        fromBe4_u32be id hid, hp, MSG_TYPE_UNIX_CONNECT, MSG_TYPE_TCP_CONNECT]
    · have hd : data.length < 4294967296 := hdata h1 h5
      simp [SocketMessage.serialize, SocketMessage.deserialize, u32be, h1, h5,
        fromBe4_u32be id hid, fromBe4_u32be data.length hd,
        MSG_TYPE_UNIX_CONNECT, MSG_TYPE_TCP_CONNECT]

/-- Witness for C8 at a concrete UNIX_CONNECT message. -/
theorem C8_serialize_roundtrip_witness :
    ValidMsg ⟨1, 305419896, [47, 116, 109, 112], (0, 0, 0, 0), 0, []⟩ ∧
    SocketMessage.deserialize
        (SocketMessage.serialize ⟨1, 305419896, [47, 116, 109, 112], (0, 0, 0, 0), 0, []⟩) =
      .ok ⟨1, 305419896, [47, 116, 109, 112], (0, 0, 0, 0), 0, []⟩ :=
  ⟨by decide, C8_serialize_roundtrip _ (by decide)⟩

/-! ### Association-table lemmas -/

theorem tblRemove_fst {A : Type} (t : List (Nat × A)) (k : Nat) :
    (tblRemove t k).1 = tblLookup t k := by
  induction t with
  | nil => rfl
  | cons hd tl ih =>
    obtain ⟨k', v⟩ := hd
    by_cases hk : k' = k
    · simp [tblRemove, tblLookup, hk]
    · simp [tblRemove, tblLookup, hk, ih]

theorem tblRemove_of_lookup_none {A : Type} (t : List (Nat × A)) (k : Nat)
    (h : tblLookup t k = none) : tblRemove t k = (none, t) := by
  induction t with
  | nil => rfl
  | cons hd tl ih =>
    obtain ⟨k', v⟩ := hd
    simp only [tblLookup] at h
    by_cases hk : k' = k
    · simp [hk] at h
    · simp only [if_neg hk] at h
      simp [tblRemove, if_neg hk, ih h]

theorem tblLookup_eq_none_of_not_mem {A : Type} (t : List (Nat × A)) (k : Nat)
    (h : k ∉ t.map Prod.fst) : tblLookup t k = none := by
  induction t with
  | nil => rfl
  | cons hd tl ih =>
    obtain ⟨k', v⟩ := hd
    simp only [List.map_cons, List.mem_cons] at h
    push_neg at h
    simp only [tblLookup, if_neg (fun hh : k' = k => h.1 hh.symm)]
    exact ih h.2

theorem tblLookup_tblRemove_self {A : Type} (t : List (Nat × A)) (k : Nat)
    (hnd : (t.map Prod.fst).Nodup) : tblLookup (tblRemove t k).2 k = none := by
  induction t with
  | nil => rfl
  | cons hd tl ih =>
    obtain ⟨k', v⟩ := hd
    simp only [List.map_cons, List.nodup_cons] at hnd
    by_cases hk : k' = k
    · subst hk
      simp only [tblRemove, if_pos rfl]
      exact tblLookup_eq_none_of_not_mem tl k' hnd.1
    · simp only [tblRemove, if_neg hk, tblLookup]
      exact ih hnd.2

theorem tblLookup_tblRemove_ne {A : Type} (t : List (Nat × A)) (k k' : Nat)
    (hne : k' ≠ k) : tblLookup (tblRemove t k).2 k' = tblLookup t k' := by
  induction t with
  | nil => rfl
  | cons hd tl ih =>
    obtain ⟨a, v⟩ := hd
    by_cases hk : a = k
    · subst hk
      have h2 : ¬a = k' := fun hh => hne hh.symm
      simp [tblRemove, tblLookup, h2]
    · simp only [tblRemove, if_neg hk, tblLookup]
      by_cases ha : a = k'
      · simp [ha]
      · simp [ha, ih]

/-- **C9.** A UNIX_CLOSE or TCP_CLOSE whose connection id is absent from the
corresponding table produces a response carrying the single status byte `0x01`
and leaves both connection tables (and the whole state) unchanged; a CLOSE for
a present id produces status `0x00`, removes exactly that entry from its
table, leaves the other table unchanged, and destroys the stream. -/
theorem C9_close_semantics (st : SockState) (m : SocketMessage)
    (hndU : (st.unix_connections.map Prod.fst).Nodup)
    (hndT : (st.tcp_connections.map Prod.fst).Nodup) :
    (tblLookup st.unix_connections m.socket_id = none →
      handle_unix_close st m =
        .ok (MSG_TYPE_UNIX_CLOSE :: u32be m.socket_id ++ [0, 0, 0, 1, 1], st)) ∧
    (∀ p s, tblLookup st.unix_connections m.socket_id = some (p, s) →
      ∃ st', handle_unix_close st m =
          .ok (MSG_TYPE_UNIX_CLOSE :: u32be m.socket_id ++ [0, 0, 0, 1, 0], st') ∧
        tblLookup st'.unix_connections m.socket_id = none ∧
        (∀ k, k ≠ m.socket_id →
          tblLookup st'.unix_connections k = tblLookup st.unix_connections k) ∧
        st'.tcp_connections = st.tcp_connections ∧
        st'.destroyed = st.destroyed ++ [s]) ∧
    (tblLookup st.tcp_connections m.socket_id = none →
      handle_tcp_close st m =
        .ok (MSG_TYPE_TCP_CLOSE :: u32be m.socket_id ++ [0, 0, 0, 1, 1], st)) ∧
    (∀ p s, tblLookup st.tcp_connections m.socket_id = some (p, s) →
      ∃ st', handle_tcp_close st m =
          .ok (MSG_TYPE_TCP_CLOSE :: u32be m.socket_id ++ [0, 0, 0, 1, 0], st') ∧
        tblLookup st'.tcp_connections m.socket_id = none ∧
        (∀ k, k ≠ m.socket_id →
          tblLookup st'.tcp_connections k = tblLookup st.tcp_connections k) ∧
        st'.unix_connections = st.unix_connections ∧
        st'.destroyed = st.destroyed ++ [s]) := by
  refine ⟨?_, ?_, ?_, ?_⟩
  · intro h
    simp [handle_unix_close, tblRemove_of_lookup_none _ _ h, SocketMessage.serialize,
      u32be, MSG_TYPE_UNIX_CLOSE, MSG_TYPE_UNIX_CONNECT, MSG_TYPE_TCP_CONNECT]
  · intro p s h
    have h1 : (tblRemove st.unix_connections m.socket_id).1 = some (p, s) := by
      rw [tblRemove_fst]; exact h
    refine ⟨{ st with
        unix_connections := (tblRemove st.unix_connections m.socket_id).2,
        destroyed := st.destroyed ++ [s] }, ?_, ?_, ?_, rfl, rfl⟩
    · simp [handle_unix_close, h1, SocketMessage.serialize, u32be,
        MSG_TYPE_UNIX_CLOSE, MSG_TYPE_UNIX_CONNECT, MSG_TYPE_TCP_CONNECT]
    · exact tblLookup_tblRemove_self _ _ hndU
    · exact fun k hk => tblLookup_tblRemove_ne _ _ _ hk
  · intro h
    simp [handle_tcp_close, tblRemove_of_lookup_none _ _ h, SocketMessage.serialize,
      u32be, MSG_TYPE_TCP_CLOSE, MSG_TYPE_UNIX_CONNECT, MSG_TYPE_TCP_CONNECT]
  · intro p s h
    have h1 : (tblRemove st.tcp_connections m.socket_id).1 = some (p, s) := by
      rw [tblRemove_fst]; exact h
    refine ⟨{ st with
        tcp_connections := (tblRemove st.tcp_connections m.socket_id).2,
        destroyed := st.destroyed ++ [s] }, ?_, ?_, ?_, rfl, rfl⟩
    · simp [handle_tcp_close, h1, SocketMessage.serialize, u32be,
        MSG_TYPE_TCP_CLOSE, MSG_TYPE_UNIX_CONNECT, MSG_TYPE_TCP_CONNECT]
    · exact tblLookup_tblRemove_self _ _ hndT
    · exact fun k hk => tblLookup_tblRemove_ne _ _ _ hk

/-- Witness for C9 at a concrete state: closing absent id 9 returns status 1
and the state is untouched. -/
theorem C9_close_semantics_witness :
    tblLookup (SockState.mk [(7, ([], 42))] [] []).unix_connections 9 = none ∧
    handle_unix_close ⟨[(7, ([], 42))], [], []⟩ ⟨4, 9, [], (0, 0, 0, 0), 0, []⟩ =
      .ok (MSG_TYPE_UNIX_CLOSE :: u32be 9 ++ [0, 0, 0, 1, 1],
           ⟨[(7, ([], 42))], [], []⟩) :=
  ⟨by decide,
   (C9_close_semantics ⟨[(7, ([], 42))], [], []⟩ ⟨4, 9, [], (0, 0, 0, 0), 0, []⟩
     (by decide) (by decide)).1 (by decide)⟩

/-- **C10.** A UNIX_RECEIVE or TCP_RECEIVE for an absent connection id is
answered with a normally-shaped RECEIVE response whose data payload is the
single byte `0x01` (`data_len = 1`) — byte-identical to the response for a
successful read that returned the one byte `0x01`, so the host cannot
distinguish the two. -/
theorem C10_receive_unknown_id (env : SockEnv) (st : SockState) (m : SocketMessage) :
    (tblLookup st.unix_connections m.socket_id = none →
      handle_unix_receive env st m =
        .ok (MSG_TYPE_UNIX_RECEIVE :: u32be m.socket_id ++ [0, 0, 0, 1, 1], st)) ∧
    (∀ p s, tblLookup st.unix_connections m.socket_id = some (p, s) →
      env.readStream s = .ok [1] →
      handle_unix_receive env st m =
        .ok (MSG_TYPE_UNIX_RECEIVE :: u32be m.socket_id ++ [0, 0, 0, 1, 1], st)) ∧
    (tblLookup st.tcp_connections m.socket_id = none →
      handle_tcp_receive env st m =
        .ok (MSG_TYPE_TCP_RECEIVE :: u32be m.socket_id ++ [0, 0, 0, 1, 1], st)) ∧
    (∀ p s, tblLookup st.tcp_connections m.socket_id = some (p, s) →
      env.readStream s = .ok [1] →
      handle_tcp_receive env st m =
        .ok (MSG_TYPE_TCP_RECEIVE :: u32be m.socket_id ++ [0, 0, 0, 1, 1], st)) := by
  refine ⟨?_, ?_, ?_, ?_⟩
  · intro h
    simp [handle_unix_receive, h, SocketMessage.serialize, u32be,
      MSG_TYPE_UNIX_RECEIVE, MSG_TYPE_UNIX_CONNECT, MSG_TYPE_TCP_CONNECT]
  · intro p s h hr
    simp [handle_unix_receive, h, hr, SocketMessage.serialize, u32be,
      MSG_TYPE_UNIX_RECEIVE, MSG_TYPE_UNIX_CONNECT, MSG_TYPE_TCP_CONNECT]
  · intro h
    simp [handle_tcp_receive, h, SocketMessage.serialize, u32be,
      MSG_TYPE_TCP_RECEIVE, MSG_TYPE_UNIX_CONNECT, MSG_TYPE_TCP_CONNECT]
  · intro p s h hr
    simp [handle_tcp_receive, h, hr, SocketMessage.serialize, u32be,
      MSG_TYPE_TCP_RECEIVE, MSG_TYPE_UNIX_CONNECT, MSG_TYPE_TCP_CONNECT]

/-- Witness for C10: with one registered unix stream (token 42) whose read
yields `[0x01]`, receiving on absent id 9 and receiving on present id 7
produce the same bytes apart from the id. -/
theorem C10_receive_unknown_id_witness :
    handle_unix_receive
        ⟨fun _ => .ok 0, fun _ _ => .ok 0, fun _ => .ok (), fun _ _ => .ok (),
         fun _ => .ok [1]⟩
        ⟨[(7, ([], 42))], [], []⟩ ⟨3, 9, [], (0, 0, 0, 0), 0, []⟩ =
      .ok (MSG_TYPE_UNIX_RECEIVE :: u32be 9 ++ [0, 0, 0, 1, 1],
           ⟨[(7, ([], 42))], [], []⟩) ∧
    handle_unix_receive
        ⟨fun _ => .ok 0, fun _ _ => .ok 0, fun _ => .ok (), fun _ _ => .ok (),
         fun _ => .ok [1]⟩
        ⟨[(7, ([], 42))], [], []⟩ ⟨3, 7, [], (0, 0, 0, 0), 0, []⟩ =
      .ok (MSG_TYPE_UNIX_RECEIVE :: u32be 7 ++ [0, 0, 0, 1, 1],
           ⟨[(7, ([], 42))], [], []⟩) :=
  ⟨(C10_receive_unknown_id _ ⟨[(7, ([], 42))], [], []⟩
      ⟨3, 9, [], (0, 0, 0, 0), 0, []⟩).1 (by decide),
   (C10_receive_unknown_id _ ⟨[(7, ([], 42))], [], []⟩
      ⟨3, 7, [], (0, 0, 0, 0), 0, []⟩).2.1 [] 42 (by decide) rfl⟩

/-- Counterexample to **C4** as stated: a UNIX_CONNECT whose `connect` fails
with errno 111 makes `handle_unix_connect` return `Err(SetupError 111)` —
terminating the dispatch loop — rather than a status-1 response; and even a
successful connect's response payload is the destination echo
`path_len ∥ path`, not the single status byte the claim describes
(the `vec![0]` status is dropped by `serialize` for connect types). -/
theorem C4_counterexample :
    handle_unix_connect sockEnvConnFail emptySockState c4msg =
      .error (CmioError.SetupError 111) ∧
    handle_unix_connect sockEnvOk emptySockState c4msg =
      .ok ([1, 0, 0, 0, 1, 4, 47, 116, 109, 112],
           ⟨[(1, ([47, 116, 109, 112], 0))], [], []⟩) ∧
    ([1, 0, 0, 0, 1, 4, 47, 116, 109, 112] : List Nat) ≠
      1 :: u32be 1 ++ [0, 0, 0, 1, 0] := by
  refine ⟨by decide, by decide, by decide⟩

/-- **C4 (amended).** A successful UNIX_CONNECT or TCP_CONNECT produces a
response that echoes the message type, connection id and destination (the
status data byte is dropped by serialization for connect types, so no status
byte reaches the wire); a failed connect — including a failed
`set_nonblocking` after a TCP connect — propagates `Err(SetupError errno)`,
which terminates the dispatch loop, instead of producing a status-1
response. -/
theorem C4_connect_responses (env : SockEnv) (st : SockState) (m : SocketMessage) :
    (∀ e, env.unixConnect m.path = .error e →
      handle_unix_connect env st m = .error (.SetupError e)) ∧
    (∀ s, env.unixConnect m.path = .ok s → ∃ st',
      handle_unix_connect env st m =
        .ok (MSG_TYPE_UNIX_CONNECT :: u32be m.socket_id ++
              m.path.length % 256 :: m.path, st')) ∧
    (∀ e, env.tcpConnect m.ip_addr m.port = .error e →
      handle_tcp_connect env st m = .error (.SetupError e)) ∧
    (∀ s e, env.tcpConnect m.ip_addr m.port = .ok s →
      env.setNonblocking s = .error e →
      handle_tcp_connect env st m = .error (.SetupError e)) ∧
    (∀ s, env.tcpConnect m.ip_addr m.port = .ok s →
      env.setNonblocking s = .ok () → ∃ st',
      handle_tcp_connect env st m =
        .ok (MSG_TYPE_TCP_CONNECT :: u32be m.socket_id ++
              [m.ip_addr.1, m.ip_addr.2.1, m.ip_addr.2.2.1, m.ip_addr.2.2.2] ++
              u16be m.port, st')) := by
  refine ⟨?_, ?_, ?_, ?_, ?_⟩
  · intro e he
    simp [handle_unix_connect, he]
  · intro s hs
    refine ⟨{ st with
        unix_connections := (tblInsert st.unix_connections m.socket_id (m.path, s)).2,
        destroyed := st.destroyed ++
          (((tblInsert st.unix_connections m.socket_id (m.path, s)).1).map
            (fun v => v.2)).toList }, ?_⟩
    simp [handle_unix_connect, hs, SocketMessage.serialize,
      MSG_TYPE_UNIX_CONNECT, MSG_TYPE_TCP_CONNECT]
  · intro e he
    simp [handle_tcp_connect, he]
  · intro s e hs hn
    simp [handle_tcp_connect, hs, hn]
  · intro s hs hn
    refine ⟨{ st with
        tcp_connections := (tblInsert st.tcp_connections m.socket_id (m.path, s)).2,
        destroyed := st.destroyed ++
          (((tblInsert st.tcp_connections m.socket_id (m.path, s)).1).map
            (fun v => v.2)).toList }, ?_⟩
    simp [handle_tcp_connect, hs, hn, SocketMessage.serialize,
      MSG_TYPE_UNIX_CONNECT, MSG_TYPE_TCP_CONNECT]

/-- Witness for C4 (amended) on the failing-connect branch. -/
theorem C4_connect_responses_witness :
    sockEnvConnFail.unixConnect c4msg.path = .error 111 ∧
    handle_unix_connect sockEnvConnFail emptySockState c4msg =
      .error (CmioError.SetupError 111) :=
  ⟨rfl, (C4_connect_responses sockEnvConnFail emptySockState c4msg).1 111 rfl⟩

/-- **C1** fails on the code.  The decoder alone handles the spec's
UNIX_CONNECT message correctly (first conjunct), but the dispatcher advances
its cursor by `1 + 4 + 4 + data.len()` = 9 bytes for *every* message type,
while the connect message occupies 17 bytes; re-parsing from the middle of
the path then fails, so the spec's connect+send+close batch produces a
protocol error instead of the claimed three-response batch (second
conjunct). -/
theorem C1_dispatch_offset_bug :
    SocketMessage.deserialize c1Batch = .ok ⟨1, 1, c1Path, (0, 0, 0, 0), 0, []⟩ ∧
    process_received_data sockEnvOk emptySockState c1Batch =
      .error (CmioError.SetupError (-1)) := by
  refine ⟨by decide, by decide⟩

/-- **C3** fails on the code.  With `open` returning fd 3 and the SETUP ioctl
failing (errno 5), `Cmio::new` returns the error with the descriptor still
open; with SETUP succeeding and the RX mapping failing (errno 7), the TX
region is unmapped but the descriptor is again left open.  No error path of
`Cmio::new` closes the descriptor, so release is partial. -/
theorem C3_descriptor_leak :
    (cmioNew c3envSetupFail).1 = .error (CmioError.SetupError 5) ∧
    heldFds (cmioNew c3envSetupFail).2 = [3] ∧
    heldMaps (cmioNew c3envSetupFail).2 = [] ∧
    (cmioNew c3envRxMapFail).1 = .error (CmioError.MapError 7) ∧
    heldFds (cmioNew c3envRxMapFail).2 = [3] ∧
    heldMaps (cmioNew c3envRxMapFail).2 = [] := by
  decide

/-- **C5.** `yield_with_buffer` rejects `|tx| > Ctx` with
`BufferTooLarge(|tx|, Ctx)` before copying or yielding; otherwise it copies
`tx` into the TX buffer prefix, issues exactly one yield, and on return with
host response length `n` rejects `n > Crx` with `BufferTooLarge(n, Crx)`, and
otherwise returns exactly the first `n` bytes of the RX buffer together with
the host-provided reason. -/
theorem C5_yield_with_buffer (st : CmioSt) (env : YieldEnv) (dev cmd reason : Nat)
    (tx : List Nat) :
    (tx.length > st.tx_length →
      yield_with_buffer st env dev cmd reason tx =
        (.error (.BufferTooLarge tx.length st.tx_length), st, [])) ∧
    (tx.length ≤ st.tx_length → env.ioctlOk = true →
      ((yield_with_buffer st env dev cmd reason tx).2.1.tx_buffer.take tx.length = tx ∧
       (yield_with_buffer st env dev cmd reason tx).2.2 =
         [packWord dev cmd reason tx.length] ∧
       (env.respWord (packWord dev cmd reason tx.length) % 2 ^ 64 % 4294967296 >
           st.rx_length →
         (yield_with_buffer st env dev cmd reason tx).1 =
           .error (.BufferTooLarge
             (env.respWord (packWord dev cmd reason tx.length) % 2 ^ 64 % 4294967296)
             st.rx_length)) ∧
       (env.respWord (packWord dev cmd reason tx.length) % 2 ^ 64 % 4294967296 ≤
           st.rx_length →
         (yield_with_buffer st env dev cmd reason tx).1 =
           .ok (env.rxAfter.take
                  (env.respWord (packWord dev cmd reason tx.length) % 2 ^ 64 %
                    4294967296),
                env.respWord (packWord dev cmd reason tx.length) % 2 ^ 64 / 2 ^ 32 %
                  65536)))) := by
  constructor
  · intro h
    simp [yield_with_buffer, h]
  · intro h hok
    have hnot : ¬tx.length > st.tx_length := by omega
    refine ⟨?_, ?_, ?_, ?_⟩
    · simp [yield_with_buffer, hnot, hok, List.take_left]
    · simp [yield_with_buffer, hnot, hok]
    · intro h2
      rw [show (2 : ℕ) ^ 64 = 18446744073709551616 from rfl] at h2
      simp [yield_with_buffer, hnot, hok, h2]
    · intro h2
      have h3 : ¬env.respWord (packWord dev cmd reason tx.length) % 2 ^ 64 %
          4294967296 > st.rx_length := by omega
      rw [show (2 : ℕ) ^ 64 = 18446744073709551616 from rfl] at h3
      simp [yield_with_buffer, hnot, hok, h3]

/-- Witness for C5: an oversize TX payload is rejected without a yield, and a
fitting one yields and returns the first 2 bytes of the RX buffer with the
host's reason 85. -/
theorem C5_yield_with_buffer_witness :
    (yield_with_buffer ⟨4, 4, [9, 9, 9, 9]⟩
        ⟨true, 0, fun _ => packWord 0 0 85 2, [5, 6, 7, 8]⟩ 2 1 66 [1, 2, 3, 4, 5] =
      (.error (.BufferTooLarge 5 4), ⟨4, 4, [9, 9, 9, 9]⟩, [])) ∧
    ((yield_with_buffer ⟨4, 4, [9, 9, 9, 9]⟩
        ⟨true, 0, fun _ => packWord 0 0 85 2, [5, 6, 7, 8]⟩ 2 1 66 [1, 2]).1 =
      .ok ([5, 6], 85)) :=
  ⟨(C5_yield_with_buffer ⟨4, 4, [9, 9, 9, 9]⟩
      ⟨true, 0, fun _ => packWord 0 0 85 2, [5, 6, 7, 8]⟩ 2 1 66 [1, 2, 3, 4, 5]).1
      (by decide),
   ((C5_yield_with_buffer ⟨4, 4, [9, 9, 9, 9]⟩
      ⟨true, 0, fun _ => packWord 0 0 85 2, [5, 6, 7, 8]⟩ 2 1 66 [1, 2]).2
      (by decide) rfl).2.2.2 (by decide)⟩

/-- Counterexample to **C2** as stated: with no readable TAP frames,
`Ctx = Crx = 4096` and a host answering every yield with an empty RX payload,
one iteration of the TAP adapter main loop performs exactly **two** yields —
the check-for-incoming-data yield and, after it returns empty, the
"yield to the scheduler" of lines 133-142 — not one. -/
theorem C2_counterexample :
    runLoopIter 4096 4096 (fun _ => ([], 0)) 1 [] =
      some (.ok ([tapYield [], tapYield []], [])) ∧
    ([tapYield [], tapYield []] : List YCall).length ≠ 1 := by
  refine ⟨by decide, by decide⟩

/-- **C2 (amended).** When the TAP interface has no readable frames and the
host answers every yield with an empty RX payload, one iteration of the TAP
adapter main loop performs exactly two yields, each with TX payload length 0
and reason `TAP_RXTX_REASON` (0x42): one to check for incoming data and —
after it returns empty — a second scheduler yield whose response is
discarded; nothing is injected, and then the iteration ends. -/
theorem C2_idle_two_yields (ctx crx fuel : Nat) (host : Nat → List Nat × Nat)
    (tapReads : List TapRead)
    (hTap : get_packets_to_transmit tapReads = .ok [])
    (hhost : ∀ i, (host i).1 = []) :
    runLoopIter ctx crx host fuel tapReads =
      some (.ok ([tapYield [], tapYield []], [])) := by
  simp only [runLoopIter, hTap]
  simp [netYield, hhost 0, hhost 1]

/-- Witness for C2 (amended) at a concrete empty TAP and always-empty host. -/
theorem C2_idle_two_yields_witness :
    runLoopIter 4096 4096 (fun _ => ([], 0)) 1 [] =
      some (.ok ([tapYield [], tapYield []], [])) :=
  C2_idle_two_yields 4096 4096 1 (fun _ => ([], 0)) [] rfl (fun _ => rfl)

/-! ### Batching lemmas for C6 -/

theorem batchSize_append (a b : List (List Nat)) :
    batchSize (a ++ b) = batchSize a + batchSize b := by
  simp [batchSize]

theorem batchSize_nil : batchSize ([] : List (List Nat)) = 0 := rfl

theorem batchSize_cons (p : List Nat) (ps : List (List Nat)) :
    batchSize (p :: ps) = p.length + 2 + batchSize ps := by
  simp [batchSize]

theorem serializeBatch_append (a b : List (List Nat)) :
    serializeBatch (a ++ b) = serializeBatch a ++ serializeBatch b := by
  simp [serializeBatch]

theorem batchLoop_flatten (ctx : Nat) :
    ∀ (rest cur : List (List Nat)) (s : Nat),
      (batchLoop ctx cur s rest).flatten = cur ++ rest := by
  intro rest
  induction rest with
  | nil =>
    intro cur s
    by_cases h : cur.isEmpty
    · simp [batchLoop, h, List.isEmpty_iff.mp h]
    · simp [batchLoop, h]
  | cons p rest ih =>
    intro cur s
    by_cases h : s + (p.length + 2) > ctx ∧ ¬cur.isEmpty
    · simp only [batchLoop]
      rw [if_pos h]
      simp [ih]
    · simp only [batchLoop]
      rw [if_neg h]
      simp [ih]

theorem batchLoop_single (ctx : Nat) :
    ∀ (rest cur : List (List Nat)) (s : Nat), s = batchSize cur →
      batchSize cur + batchSize rest ≤ ctx → cur ++ rest ≠ [] →
      batchLoop ctx cur s rest = [cur ++ rest] := by
  intro rest
  induction rest with
  | nil =>
    intro cur s _ _ hne
    have hc : ¬cur.isEmpty := by
      simpa [List.isEmpty_iff] using (by simpa using hne : cur ≠ [])
    simp [batchLoop, hc]
  | cons p rest ih =>
    intro cur s hs htot hne
    rw [batchSize_cons] at htot
    have hcond : ¬(s + (p.length + 2) > ctx ∧ ¬cur.isEmpty) := by
      rintro ⟨hgt, -⟩
      omega
    simp only [batchLoop]
    rw [if_neg hcond]
    rw [ih (cur ++ [p]) (s + (p.length + 2))
      (by rw [batchSize_append, batchSize_cons, batchSize_nil]; omega)
      (by rw [batchSize_append, batchSize_cons, batchSize_nil]; omega)
      (by simp)]
    simp

theorem batchLoop_head (ctx : Nat) :
    ∀ (rest cs : List (List Nat)) (c : List Nat) (s : Nat),
      ∃ tl bs, batchLoop ctx (c :: cs) s rest = (c :: tl) :: bs := by
  intro rest
  induction rest with
  | nil =>
    intro cs c s
    exact ⟨cs, [], by simp [batchLoop]⟩
  | cons p rest ih =>
    intro cs c s
    by_cases h : s + (p.length + 2) > ctx ∧ ¬(c :: cs).isEmpty
    · refine ⟨cs, batchLoop ctx [p] (p.length + 2) rest, ?_⟩
      simp only [batchLoop]
      rw [if_pos h]
    · obtain ⟨tl, bs, heq⟩ := ih (cs ++ [p]) c (s + (p.length + 2))
      refine ⟨tl, bs, ?_⟩
      simp only [batchLoop]
      rw [if_neg h]
      simpa using heq

theorem batchLoop_sizes (ctx : Nat) :
    ∀ (rest cur : List (List Nat)) (s : Nat), s = batchSize cur →
      (cur = [] ∨ batchSize cur ≤ ctx ∨ ∃ f, cur = [f] ∧ ctx < f.length + 2) →
      ∀ b ∈ batchLoop ctx cur s rest,
        b ≠ [] ∧ (batchSize b ≤ ctx ∨ ∃ f, b = [f] ∧ ctx < f.length + 2) := by
  intro rest
  induction rest with
  | nil =>
    intro cur s _ hinv b hb
    by_cases h : cur.isEmpty
    · simp [batchLoop, h] at hb
    · simp only [batchLoop, if_neg h, List.mem_singleton] at hb
      subst hb
      have hcur : b ≠ [] := fun hc => h (by simp [hc])
      rcases hinv with h0 | h1 | h2
      · exact absurd h0 hcur
      · exact ⟨hcur, Or.inl h1⟩
      · exact ⟨hcur, Or.inr h2⟩
  | cons p rest ih =>
    intro cur s hs hinv b hb
    by_cases h : s + (p.length + 2) > ctx ∧ ¬cur.isEmpty
    · simp only [batchLoop] at hb
      rw [if_pos h] at hb
      rcases List.mem_cons.mp hb with rfl | hb'
      · have hcur : b ≠ [] := by simpa [List.isEmpty_iff] using h.2
        rcases hinv with h0 | h1 | h2
        · exact absurd h0 hcur
        · exact ⟨hcur, Or.inl h1⟩
        · exact ⟨hcur, Or.inr h2⟩
      · refine ih [p] (p.length + 2) (by simp [batchSize]) ?_ b hb'
        rcases le_or_lt (p.length + 2) ctx with hle | hgt
        · exact Or.inr (Or.inl (by simpa [batchSize] using hle))
        · exact Or.inr (Or.inr ⟨p, rfl, hgt⟩)
    · simp only [batchLoop] at hb
      rw [if_neg h] at hb
      refine ih (cur ++ [p]) (s + (p.length + 2))
        (by rw [hs, batchSize_append]; simp [batchSize]) ?_ b hb
      rcases not_and_or.mp h with h1 | h2
      · refine Or.inr (Or.inl ?_)
        rw [batchSize_append, batchSize_cons, batchSize_nil]
        omega
      · have hc : cur = [] := List.isEmpty_iff.mp (not_not.mp h2)
        subst hc
        rcases le_or_lt (p.length + 2) ctx with hle | hgt
        · exact Or.inr (Or.inl (by simpa [batchSize] using hle))
        · exact Or.inr (Or.inr ⟨p, by simp, hgt⟩)

theorem batchLoop_chain (ctx : Nat) :
    ∀ (rest cur : List (List Nat)) (s : Nat), s = batchSize cur →
      List.Chain'
        (fun b b' => ∃ p tl, b' = p :: tl ∧ ctx < batchSize b + (p.length + 2))
        (batchLoop ctx cur s rest) := by
  intro rest
  induction rest with
  | nil =>
    intro cur s _
    by_cases h : cur.isEmpty <;> simp [batchLoop, h]
  | cons p rest ih =>
    intro cur s hs
    by_cases h : s + (p.length + 2) > ctx ∧ ¬cur.isEmpty
    · simp only [batchLoop]
      rw [if_pos h]
      rw [List.chain'_cons']
      constructor
      · intro y hy
        obtain ⟨tl, bs, heq⟩ := batchLoop_head ctx rest [] p (p.length + 2)
        rw [heq] at hy
        simp only [List.head?_cons, Option.mem_def, Option.some.injEq] at hy
        subst hy
        exact ⟨p, tl, rfl, by have := h.1; omega⟩
      · exact ih [p] (p.length + 2) (by simp [batchSize])
    · simp only [batchLoop]
      rw [if_neg h]
      exact ih (cur ++ [p]) (s + (p.length + 2))
        (by rw [hs, batchSize_append]; simp [batchSize])

/-- **C6.** For every non-empty frame list `F` drained from the TAP: if
`Σ(2+|f|) ≤ Ctx` the partition is the single batch `F`; every batch is
non-empty and either fits `Ctx` or is a lone oversize frame attempted as its
own batch; a new batch begins only where the previous batch plus the next
frame would overflow `Ctx`; and the concatenation of the batches — and of
their serializations, `u16_be(len) ∥ frame` in drain order — equals (the
serialization of) `F`. -/
theorem C6_egress_batching (ctx : Nat) (F : List (List Nat)) (hF : F ≠ []) :
    (batchSize F ≤ ctx → batchPackets ctx F = [F]) ∧
    (∀ b ∈ batchPackets ctx F,
      b ≠ [] ∧ (batchSize b ≤ ctx ∨ ∃ f, b = [f] ∧ ctx < f.length + 2)) ∧
    List.Chain'
      (fun b b' => ∃ p tl, b' = p :: tl ∧ ctx < batchSize b + (p.length + 2))
      (batchPackets ctx F) ∧
    (batchPackets ctx F).flatten = F ∧
    ((batchPackets ctx F).map serializeBatch).flatten = serializeBatch F := by
  have hflat : (batchPackets ctx F).flatten = F := by
    simpa using batchLoop_flatten ctx F [] 0
  refine ⟨?_, ?_, ?_, hflat, ?_⟩
  · intro hle
    have := batchLoop_single ctx F [] 0 (by simp [batchSize])
      (by simpa [batchSize] using hle) (by simpa using hF)
    simpa [batchPackets] using this
  · intro b hb
    exact batchLoop_sizes ctx F [] 0 (by simp [batchSize]) (Or.inl rfl) b hb
  · exact batchLoop_chain ctx F [] 0 (by simp [batchSize])
  · have hj : ∀ bs : List (List (List Nat)),
        (bs.map serializeBatch).flatten = serializeBatch bs.flatten := by
      intro bs
      induction bs with
      | nil => simp [serializeBatch]
      | cons x xs ihx => simp [serializeBatch_append, ihx]
    rw [hj (batchPackets ctx F), hflat]

/-- Witness for C6: two small frames fit one batch. -/
theorem C6_egress_batching_witness :
    batchPackets 10 [[1], [2]] = [[[1], [2]]] :=
  (C6_egress_batching 10 [[1], [2]] (by decide)).1 (by decide)

/-! ### Ingress-parsing lemma for C7 -/

theorem parsePackets_truncated (t : List Nat) (ht : truncatedFragment t) :
    parsePackets t = [] := by
  rcases ht with h | ⟨b, h⟩ | ⟨b1, b2, r, h, hlen⟩ <;> subst h
  · simp [parsePackets]
  · simp [parsePackets]
  · simp [parsePackets, hlen]

/-- **C7.** The ingress parser reads an RX payload as a sequence of
`(u16_be length, body)` records, performing exactly one TAP send per complete
record, in order, with that record's body; a trailing fragment shorter than
its declared length (including a lone length byte) is silently discarded
after all preceding complete records have been injected, with no error. -/
theorem C7_ingress_parse (frames : List (List Nat)) (t : List Nat)
    (hf : ∀ f ∈ frames, f.length < 65536) (ht : truncatedFragment t) :
    parsePackets (serializeBatch frames ++ t) = frames := by
  induction frames with
  | nil =>
    simpa [serializeBatch] using parsePackets_truncated t ht
  | cons f fs ih =>
    have hflen : f.length < 65536 := hf f (List.mem_cons_self f fs)
    have hfs : ∀ g ∈ fs, g.length < 65536 := fun g hg => hf g (List.mem_cons_of_mem f hg)
    have hlen : f.length / 256 % 256 * 256 + f.length % 256 = f.length := by omega
    have hsplit : serializeBatch (f :: fs) ++ t =
        f.length / 256 % 256 :: f.length % 256 :: (f ++ (serializeBatch fs ++ t)) := by
      simp [serializeBatch, serializeFrame, u16be]
    rw [hsplit, parsePackets]
    simp only [hlen]
    have hge : ¬(f ++ (serializeBatch fs ++ t)).length < f.length := by
      simp [List.length_append]
    rw [if_neg hge, List.take_left, List.drop_left, ih hfs]

/-- Witness for C7: two complete records followed by a lone length byte. -/
theorem C7_ingress_parse_witness :
    parsePackets (serializeBatch [[170, 187], [204, 221, 238]] ++ [0]) =
      [[170, 187], [204, 221, 238]] :=
  C7_ingress_parse [[170, 187], [204, 221, 238]] [0] (by decide)
    (Or.inr (Or.inl ⟨0, rfl⟩))

end CmioFun
